import Mathlib

/-!
Verification development for the timestreamlib repository.

Shallow embedding of the core data model and operations:
`ImagePotRectangle`, `ImagePotHandler` rectangle replacement, the
segmentation-mask temporal fallback, the predecessor-chain heap,
`TimeStreamTraverser` navigation, `TimeStream.create` / `write_image`,
and the per-series pipeline driver.

Python integers are embedded as `Int`, numpy 2-D arrays as a shape plus
an indexing function, fallible code as `Except String`.
-/

namespace Timestream

/-! ## ImagePotRectangle (src/timestream/manipulate/pot.py, lines 23-81) -/

/-- State of a constructed `ImagePotRectangle`: the `_rect` array
`[x1, y1, x2, y2]` plus the bound frame dimensions. -/
structure ImagePotRectangle where
  rect : List Int
  imgwidth : Int
  imgheight : Int
deriving Repr, DecidableEq

/-- Embedding of `ImagePotRectangle.__init__` (pot.py lines 24-65).
`rectDesc` here is the Python-list case (the `np.array` alternative of the
`isinstance` test is not reachable for list input); `imgSize` is the tuple
`img.shape` as a list, `growM` the grow margin.  Mirrors, in order: the
imgSize arity and positivity checks, the descriptor length check, corner
versus center construction, and the final bounds check
(`any coordinate < 0`, y-coordinates (indices 1,3) compared against the
image height, x-coordinates (indices 0,2) against the image width). -/
def mkImagePotRectangle (rectDesc : List Int) (imgSize : List Int)
    (growM : Int) : Except String ImagePotRectangle :=
  if imgSize.length < 2 then
    .error "ImgSize must be a tuple of at least len 2"
  else if (imgSize.take 2).any (fun v => v < 1) then
    .error "ImgSize elements must be >0"
  else
    let imgwidth := imgSize.getD 1 0
    let imgheight := imgSize.getD 0 0
    if rectDesc.length ≠ 2 ∧ rectDesc.length ≠ 4 then
      .error "Rectangle Descriptor must be a list of len 2 or 4"
    else
      let r : List Int :=
        if rectDesc.length = 4 then rectDesc
        else [rectDesc.getD 0 0 - growM, rectDesc.getD 1 0 - growM,
              rectDesc.getD 0 0 + growM, rectDesc.getD 1 0 + growM]
      if r.any (fun v => v < 0) ∨ r.getD 1 0 > imgheight ∨ r.getD 3 0 > imgheight
          ∨ r.getD 0 0 > imgwidth ∨ r.getD 2 0 > imgwidth then
        .error "Rectangle is outside containing image dims."
      else
        .ok ⟨r, imgwidth, imgheight⟩

/-- The message of the range-guard `IndexError` in
`ImagePotRectangle.__getitem__` (pot.py line 69). -/
def rectangleRangeGuardMsg : String := "Rectangle index should be [0,3]"

/-- Embedding of `ImagePotRectangle.__getitem__` (pot.py lines 67-70):
the explicit guard rejects `item > 4` or `item < 0` with the documented
range `IndexError`; any index that passes the guard is handed to the
underlying 4-element numpy array, whose own out-of-bounds failure is a
distinct error. -/
def ImagePotRectangle.getitem (r : ImagePotRectangle) (item : Int) :
    Except String Int :=
  if item > 4 ∨ item < 0 then
    .error rectangleRangeGuardMsg
  else
    match r.rect.get? item.toNat with
    | some v => .ok v
    | none => .error "numpy: index out of bounds for axis 0"

/-- `ImagePotRectangle.width` (pot.py lines 75-77): `abs(rect[2]-rect[0])`. -/
def ImagePotRectangle.width (r : ImagePotRectangle) : Int :=
  |r.rect.getD 2 0 - r.rect.getD 0 0|

/-- `ImagePotRectangle.height` (pot.py lines 79-81): `abs(rect[3]-rect[1])`. -/
def ImagePotRectangle.height (r : ImagePotRectangle) : Int :=
  |r.rect.getD 3 0 - r.rect.getD 1 0|

/-! ## numpy 2-D arrays, as used for segmentation masks -/

/-- A numpy 2-D float array: shape `(h, w)` plus an indexing function.
Mask entries are 0/1 flags (and -1 for the uncomputed sentinel), so the
elements are embedded as `Int`. -/
structure Np2 where
  h : Nat
  w : Nat
  data : Nat → Nat → Int

/-- `np.zeros([h, w]) - 1`: the uncomputed-mask sentinel array
(pot.py lines 144-145 and 295-296). -/
def negOnes (h w : Nat) : Np2 := ⟨h, w, fun _ _ => -1⟩

/-- `1 in msk` (pot.py line 211): whether any entry of the array is 1. -/
def containsOne (m : Np2) : Bool :=
  (List.range m.h).any fun i => (List.range m.w).any fun j => m.data i j == 1

/-- `pm[1:,:]`: drop the first row. -/
def dropTopRow (m : Np2) : Np2 := ⟨m.h - 1, m.w, fun i j => m.data (i + 1) j⟩

/-- `pm[:-1,:]`: drop the last row. -/
def dropBotRow (m : Np2) : Np2 := ⟨m.h - 1, m.w, m.data⟩

/-- `pm[:,1:]`: drop the first column. -/
def dropLeftCol (m : Np2) : Np2 := ⟨m.h, m.w - 1, fun i j => m.data i (j + 1)⟩

/-- `pm[:,:-1]`: drop the last column. -/
def dropRightCol (m : Np2) : Np2 := ⟨m.h, m.w - 1, m.data⟩

/-- `np.lib.pad(pm, ((1,0),(0,0)), 'constant', 0)`: one zero row on top. -/
def padTopRow (m : Np2) : Np2 :=
  ⟨m.h + 1, m.w, fun i j => if i = 0 then 0 else m.data (i - 1) j⟩

/-- `np.lib.pad(pm, ((0,1),(0,0)), 'constant', 0)`: one zero row at bottom. -/
def padBotRow (m : Np2) : Np2 :=
  ⟨m.h + 1, m.w, fun i j => if i < m.h then m.data i j else 0⟩

/-- `np.lib.pad(pm, ((0,0),(1,0)), 'constant', 0)`: one zero column left. -/
def padLeftCol (m : Np2) : Np2 :=
  ⟨m.h, m.w + 1, fun i j => if j = 0 then 0 else m.data i (j - 1)⟩

/-- `np.lib.pad(pm, ((0,0),(0,1)), 'constant', 0)`: one zero column right. -/
def padRightCol (m : Np2) : Np2 :=
  ⟨m.h, m.w + 1, fun i j => if j < m.w then m.data i j else 0⟩

/-- The `vDiff < 0` loop of `getSegmented` (pot.py lines 217-224): trim `k`
rows, alternating top (`side` true) then bottom. -/
def trimRowsAlt (m : Np2) (side : Bool) : Nat → Np2
  | 0 => m
  | k + 1 => trimRowsAlt (if side then dropTopRow m else dropBotRow m) (!side) k

/-- The `vDiff > 0` loop of `getSegmented` (pot.py lines 226-231): pad `k`
zero rows, alternating top (`padS = [1,0]`) then bottom (`padS = [0,1]`). -/
def padRowsAlt (m : Np2) (side : Bool) : Nat → Np2
  | 0 => m
  | k + 1 => padRowsAlt (if side then padTopRow m else padBotRow m) (!side) k

/-- The `hDiff < 0` loop of `getSegmented` (pot.py lines 234-241): trim `k`
columns, alternating left then right. -/
def trimColsAlt (m : Np2) (side : Bool) : Nat → Np2
  | 0 => m
  | k + 1 => trimColsAlt (if side then dropLeftCol m else dropRightCol m) (!side) k

/-- The `hDiff > 0` loop of `getSegmented` (pot.py lines 243-248): pad `k`
zero columns, alternating left then right. -/
def padColsAlt (m : Np2) (side : Bool) : Nat → Np2
  | 0 => m
  | k + 1 => padColsAlt (if side then padLeftCol m else padRightCol m) (!side) k

/-- The fallback reshaping of the predecessor mask `pm` to the current
segmentation output's shape `(mskH, mskW)` (pot.py lines 216-250):
`vDiff = msk.shape[0] - pm.shape[0]` selects the vertical trim or pad
loop, then `hDiff = msk.shape[1] - pm.shape[1]` the horizontal one. -/
def fitPrevMask (mskH mskW : Nat) (pm : Np2) : Np2 :=
  let vDiff : Int := (mskH : Int) - (pm.h : Int)
  let pm := if vDiff < 0 then trimRowsAlt pm true vDiff.natAbs else pm
  let pm := if vDiff > 0 then padRowsAlt pm true vDiff.natAbs else pm
  let hDiff : Int := (mskW : Int) - (pm.w : Int)
  let pm := if hDiff < 0 then trimColsAlt pm true hDiff.natAbs else pm
  let pm := if hDiff > 0 then padColsAlt pm true hDiff.natAbs else pm
  pm

/-- Embedding of `ImagePotHandler.getSegmented` (pot.py lines 200-252)
after the segmentation strategy has produced `msk`: if the segmentation is
bad (`1 not in msk`) and a predecessor exists, substitute the
predecessor's mask refitted to `msk`'s shape, else keep `msk`. -/
def getSegmented (msk : Np2) (prevMask : Option Np2) : Np2 :=
  match prevMask with
  | some pm => if !containsOne msk then fitPrevMask msk.h msk.w pm else msk
  | none => msk

/-! ## ImagePotHandler rectangle replacement (pot.py lines 277-336) -/

/-- The dynamic type of the value handed to the `rect` property setter:
a Python list, a numpy array (what `ImagePotRectangle.asList` returns,
pot.py lines 72-73), or an `ImagePotRectangle` instance. -/
inductive RectArg where
  | pylist (xs : List Int)
  | nparray (xs : List Int)
  | rectObj (r : ImagePotRectangle)

/-- The slice of `ImagePotHandler` state involved in rectangle
replacement: the shape of the owning frame `si`, the current `_rect`, and
the cached `_mask`. -/
structure PotState where
  siShape : List Int
  rect : ImagePotRectangle
  mask : Np2

/-- Embedding of the `ImagePotHandler.rect` setter (pot.py lines 277-297).
Only a Python `list` takes the validated-reconstruction branch (length-4
check, then `ImagePotRectangle(r, self.si.shape)` with the default
`growM=100`, then `_mask` reset to the `-1` sentinel of the new shape).
For every other argument the `elif` branch evaluates `isinstance` applied
to the single argument `ImagePotRectangle` (pot.py line 285), which raises
`TypeError: isinstance expected 2 arguments, got 1` before any branch body
can run. -/
def setRect (p : PotState) (arg : RectArg) : Except String PotState :=
  match arg with
  | .pylist xs =>
    if xs.length ≠ 4 then
      .error "Pass a list of len 4 to set a rectangle"
    else do
      let newRect ← mkImagePotRectangle xs p.siShape 100
      .ok { p with rect := newRect,
                   mask := negOnes newRect.height.toNat newRect.width.toNat }
  | _ => .error "isinstance expected 2 arguments, got 1"

/-- Embedding of `ImagePotHandler.increaseRect` (pot.py lines 328-331):
`r = self._rect.asList() + np.array([-by, -by, by, by])` — `asList`
returns the numpy `_rect` array, so the sum is a numpy array — then
assignment through the `rect` setter. -/
def increaseRect (p : PotState) (amount : Int) : Except String PotState :=
  setRect p (.nparray [p.rect.rect.getD 0 0 - amount, p.rect.rect.getD 1 0 - amount,
                       p.rect.rect.getD 2 0 + amount, p.rect.rect.getD 3 0 + amount])

/-- Embedding of `ImagePotHandler.reduceRect` (pot.py lines 333-336). -/
def reduceRect (p : PotState) (amount : Int) : Except String PotState :=
  setRect p (.nparray [p.rect.rect.getD 0 0 + amount, p.rect.rect.getD 1 0 + amount,
                       p.rect.rect.getD 2 0 - amount, p.rect.rect.getD 3 0 - amount])

/-! ## Predecessor-chain heap (pot.py lines 130-177 and 392-399)

Handlers and matrices are Python objects linked by reference, so the
linking operations are embedded over an explicit heap: an association
list from object id to record.  An update of an id not present in the
heap is a no-op (every operation in the source is invoked on existing
objects). -/

/-- Heap record for one `ImagePotHandler`: its `_iphPrev` reference and
whether a segmentation strategy `_ps` is attached. -/
structure HRec where
  prev : Option Nat
  ps : Bool
deriving Repr, DecidableEq

/-- The handler heap. -/
def HHeap := List (Nat × HRec)

/-- Dereference a handler id. -/
def hLookup (h : HHeap) (a : Nat) : Option HRec :=
  (List.find? (fun p => p.1 == a) h).map (fun p => p.2)

/-- Update the record of handler `a` in place. -/
def hUpdate (h : HHeap) (a : Nat) (f : HRec → HRec) : HHeap :=
  match h with
  | [] => []
  | p :: t => (if p.1 == a then (p.1, f p.2) else p) :: hUpdate t a f

/-- Embedding of the `ImagePotHandler.iphPrev` setter
(pot.py lines 165-177) invoked on handler `a` with value `v`: store the
reference, then clear the new predecessor's own `iphPrev`
(`self._iphPrev.iphPrev = None`) and its segmentation strategy
(`self._iphPrev.ps = None`). -/
def setIphPrev (h : HHeap) (a : Nat) (v : Option Nat) : HHeap :=
  match v with
  | none => hUpdate h a (fun r => { r with prev := none })
  | some b =>
    let h := hUpdate h a (fun r => { r with prev := some b })
    hUpdate h b (fun _r => { prev := none, ps := false })

/-- Embedding of the `iphPrev` handling in `ImagePotHandler.__init__`
(pot.py lines 130-140): allocate handler `a` with strategy flag `ps` and
predecessor `v`; when `v` is a handler, its own predecessor and strategy
are cleared exactly as in the setter. -/
def newHandler (h : HHeap) (a : Nat) (ps : Bool) (v : Option Nat) : HHeap :=
  match v with
  | none => (a, ⟨none, ps⟩) :: h
  | some b =>
    let h := (a, ⟨some b, ps⟩) :: h
    hUpdate h b (fun _r => { prev := none, ps := false })

/-- Heap record for one `ImagePotMatrix`: its `ipmPrev` reference. -/
structure MRec where
  prev : Option Nat
deriving Repr, DecidableEq

/-- The matrix heap. -/
def MHeap := List (Nat × MRec)

/-- Dereference a matrix id. -/
def mLookup (h : MHeap) (a : Nat) : Option MRec :=
  (List.find? (fun p => p.1 == a) h).map (fun p => p.2)

/-- Update the record of matrix `a` in place. -/
def mUpdate (h : MHeap) (a : Nat) (f : MRec → MRec) : MHeap :=
  match h with
  | [] => []
  | p :: t => (if p.1 == a then (p.1, f p.2) else p) :: mUpdate t a f

/-- Embedding of the `ipmPrev` handling in `ImagePotMatrix.__init__`
(pot.py lines 392-399): allocate matrix `a` with predecessor `v`; when
`v` is a matrix, `self.ipmPrev.ipmPrev = None` clears its predecessor. -/
def newMatrix (h : MHeap) (a : Nat) (v : Option Nat) : MHeap :=
  match v with
  | none => (a, ⟨none⟩) :: h
  | some b =>
    let h := (a, ⟨some b⟩) :: h
    mUpdate h b (fun _r => { prev := none })

/-- The predecessor of handler `a`, `none` for a dangling id. -/
def prevOf (h : HHeap) (a : Nat) : Option Nat :=
  match hLookup h a with
  | some r => r.prev
  | none => none

/-! ## TimeStreamTraverser navigation (src/timestream/__init__.py 473-570) -/

/-- The navigation state of a `TimeStreamTraverser`: the sparse index
`_timestamps` (timestamps embedded as `Nat`) and the cursor `_offset`. -/
structure Traverser where
  timestamps : List Nat
  offset : Nat
deriving Repr, DecidableEq

/-- Embedding of `TimeStreamTraverser.curr` (lines 552-570): resolve the
frame at `self._timestamps[self._offset]`; the Python list indexing
raises on an empty/out-of-range index, hence `Option`. -/
def Traverser.curr (tv : Traverser) : Option Nat :=
  tv.timestamps.get? tv.offset

/-- Embedding of `TimeStreamTraverser.next` (lines 540-544): when the
offset sits at the last index it is reset to 0; in every other case the
offset is left unchanged; then `curr` resolves the frame.  Returns the
new state and the yielded timestamp. -/
def Traverser.next (tv : Traverser) : Traverser × Option Nat :=
  let tv' := if tv.offset = tv.timestamps.length - 1
             then { tv with offset := 0 } else tv
  (tv', tv'.curr)

/-- Embedding of `TimeStreamTraverser.prev` (lines 546-550): when the
offset is 0 it is set to the last index; otherwise it is left unchanged;
then `curr` resolves the frame. -/
def Traverser.prev (tv : Traverser) : Traverser × Option Nat :=
  let tv' := if tv.offset = 0
             then { tv with offset := tv.timestamps.length - 1 } else tv
  (tv', tv'.curr)

/-! ## TimeStream archive (src/timestream/__init__.py, lines 82-346) -/

/-- Python-level values, needed because `_ts_date_to_path` is called with
positionally shifted arguments at one call site (line 269). -/
inductive PyVal where
  | vstr (s : String)
  | vdate (d : Int)
  | vint (n : Int)
deriving Repr, DecidableEq

/-- Python `str()` of an embedded value. -/
def pyStr : PyVal → String
  | .vstr s => s
  | .vdate d => "datetime." ++ toString d
  | .vint n => toString n

/-- Modelled from the spec: `_ts_date_to_path` lives in
`timestream.parse`, which is not under src/.  Per §6 the archive holds
"image files named by a deterministic timestamp-to-filename encoding"
with an optional disambiguating counter; per the four-argument call sites
in src (lines 259, 304, 324) the positional parameters are
`(ts_name, ext, date, subsec)`.  The date argument must be an actual
timestamp (it is rendered by date formatting); any other value fails the
way `strftime` on a non-date fails in Python. -/
def tsDateToPath (tsName ext date subsec : PyVal) : Except String String :=
  match date with
  | .vdate d =>
    .ok (pyStr tsName ++ "_" ++ toString d ++ "_" ++ pyStr subsec
         ++ "." ++ pyStr ext)
  | _ => .error "AttributeError: object has no attribute strftime"

/-- Modelled from the spec: `IMAGE_EXT_TO_TYPE` lives in
`timestream.parse.validate`, not under src/.  Per §4.4 create "infers
image type from extension unless given; fails with a configuration error
on unrecognized extension". -/
def imageExtToType : List (String × String) :=
  [("png", "png"), ("jpg", "jpg"), ("jpeg", "jpg"), ("tif", "tiff"),
   ("tiff", "tiff")]

/-- Contents of one on-disk file in the model filesystem. -/
inductive FileContent where
  | imageBytes (pixels : String)
  | jsonTable (entries : List (String × String))
  | pickled (datetime : Int)
deriving Repr, DecidableEq

/-- The model filesystem: existing directories and files with contents. -/
structure FS where
  dirs : List String
  files : List (String × FileContent)
deriving Repr, DecidableEq

/-- Whether a file exists at `p`. -/
def FS.fileExists (fs : FS) (p : String) : Bool :=
  fs.files.any (fun q => q.1 == p)

/-- `os.path.exists`: a file or directory exists at `p`. -/
def FS.pathExists (fs : FS) (p : String) : Bool :=
  fs.fileExists p || fs.dirs.contains p

/-- Write (create or replace) the file at `p`. -/
def FS.write (fs : FS) (p : String) (c : FileContent) : FS :=
  { fs with files := (p, c) :: fs.files.filter (fun q => q.1 != p) }

/-- `path.rstrip(os.sep)`. -/
def rstripSep (s : String) : String :=
  String.mk ((s.toList.reverse.dropWhile (fun c => c = '/')).reverse)

/-- The path normalization shared by `TimeStream.create` (lines 200-208)
and the `path` setter (lines 154-161): strip trailing separators, then
prefix `./` unless the path is absolute or already so prefixed. -/
def normTsPath (s : String) : String :=
  let s := rstripSep s
  if s.toList.take 1 = ['/'] then s
  else if s.toList.take 2 = ['.', '/'] then s
  else "./" ++ s

/-- Split a character list at every `/`. -/
def splitSlashAux : List Char → List Char → List (List Char)
  | [], acc => [acc.reverse]
  | c :: cs, acc =>
    if c = '/' then acc.reverse :: splitSlashAux cs []
    else splitSlashAux cs (c :: acc)

/-- The `/`-separated components of a path. -/
def splitSlash (s : String) : List String :=
  (splitSlashAux s.toList []).map String.mk

/-- Concatenate path components with `/`. -/
def joinSlash : List String → String
  | [] => ""
  | [x] => x
  | x :: xs => x ++ "/" ++ joinSlash xs

/-- `os.path.basename` on a normalized path. -/
def pathBasename (s : String) : String :=
  (splitSlash s).getLastD ""

/-- `os.path.dirname` on a normalized path. -/
def pathDirname (s : String) : String :=
  joinSlash (splitSlash s).dropLast

/-- The attributes of a `TimeStream` set by `__init__`
(lines 84-101), each starting out as Python `None`. -/
structure TimeStream where
  version : Option Int
  path : Option String
  name : Option String
  start_datetime : Option Int
  end_datetime : Option Int
  image_type : Option String
  extension : Option String
  interval : Option Int
  image_data : List (String × String)
  data : List (String × String)
  image_db_path : Option String
  db_path : Option String
  data_dir : Option String
deriving Repr, DecidableEq

/-- `TimeStream.__init__` with no version argument: every field unset. -/
def TimeStream.init : TimeStream :=
  ⟨none, none, none, none, none, none, none, none, [], [], none, none, none⟩

/-- Python falsiness of an optional string (`if not self.name`). -/
def optFalsy : Option String → Bool
  | none => true
  | some s => s.toList.isEmpty

/-- The `version` setter (lines 117-124). -/
def TimeStream.setVersion (ts : TimeStream) (v : Int) :
    Except String TimeStream :=
  if v < 1 ∨ v > 2 then
    .error "Invalid TimeStream version. Must be an int, 1 or 2"
  else
    .ok { ts with version := some v }

/-- The `name` setter (lines 130-140): a name containing `_` is refused. -/
def TimeStream.setName (ts : TimeStream) (n : String) :
    Except String TimeStream :=
  if n.toList.contains '_' then
    .error "Timestream name cant contain underscore"
  else
    .ok { ts with name := some n }

/-- The `path` setter (lines 146-168): normalize, store the root path,
derive the `_data` directory (created on disk when missing and the root
exists) and the two JSON side-table paths. -/
def TimeStream.setPath (ts : TimeStream) (fs : FS) (tsPath : String) :
    TimeStream × FS :=
  let p := normTsPath tsPath
  let dataDir := p ++ "/_data"
  let fs :=
    if ¬ fs.dirs.contains dataDir ∧ fs.dirs.contains p then
      { fs with dirs := dataDir :: fs.dirs }
    else fs
  ({ ts with path := some p, data_dir := some dataDir,
             image_db_path := some (dataDir ++ "/image_data.json"),
             db_path := some (dataDir ++ "/timestream_data.json") }, fs)

/-- Embedding of `TimeStream.create` (lines 193-230).  In order: version
setter, path normalization, parent-directory check, directory creation
for version 1, path setter, extension and start/end assignment, the
`if name is None` basename fallback (note: no `else` branch), and image
type inference from the extension. -/
def TimeStream.create (ts : TimeStream) (fs : FS) (tsPath : String)
    (version : Int) (ext : String) (ty : Option String)
    (startD endD : Int) (name : Option String) :
    Except String (TimeStream × FS) :=
  match ts.setVersion version with
  | .error e => .error e
  | .ok ts0 =>
    let p := normTsPath tsPath
    if ¬ (fs.pathExists (pathDirname p)) then
      .error "Cannot create. Parent dir doesnt exist"
    else
      let fs1 := if ¬ fs.pathExists p ∧ ts0.version = some 1 then
        { fs with dirs := p :: fs.dirs } else fs
      let tf := ts0.setPath fs1 p
      let ts1 := { tf.1 with extension := some ext,
                             start_datetime := some startD,
                             end_datetime := some endD }
      match (match name with
             | none => ts1.setName (pathBasename p)
             | some _ => .ok ts1) with
      | .error e => .error e
      | .ok ts2 =>
        match ty with
        | some t => .ok ({ ts2 with image_type := some t }, tf.2)
        | none =>
          match (imageExtToType.find? (fun q => q.1 == ext)).map (fun q => q.2) with
          | some t => .ok ({ ts2 with image_type := some t }, tf.2)
          | none => .error "Invalid image ext"

/-- The image argument of `write_image`: its timestamp, pixel buffer
(`none` when unset) and per-frame metadata. -/
structure WImage where
  datetime : Int
  pixels : Option String
  data : List (String × String)
deriving Repr, DecidableEq

/-- Outcome of a successful `write_image` call. -/
inductive WriteOutcome where
  | skipped
  | written (fpath : String)
deriving Repr, DecidableEq

/-- The `while` loop of the `increment` branch (lines 266-270):
`while path.exists(fpath) and subsec < 100`, each iteration increments
`subsec` and recomputes `fpath` by the call
`_ts_date_to_path(self.name, image.datetime, subsec)` — three positional
arguments, so `ext` receives the datetime and `date` receives the
integer counter. -/
def incrementLoopAux (fs : FS) (name : String) (d : Int) :
    Nat → String → Nat → Except String (String × Nat)
  | 0, fpath, subsec => .ok (fpath, subsec)
  | fuel + 1, fpath, subsec =>
    if fs.fileExists fpath then
      match tsDateToPath (.vstr name) (.vdate d) (.vint (subsec + 1)) (.vint 0) with
      | .ok fp => incrementLoopAux fs name d fuel fp (subsec + 1)
      | .error e => .error e
    else
      .ok (fpath, subsec)

/-- The increment loop entered with `subsec = 0`; the guard
`subsec < 100` is carried by the fuel argument `100 - subsec`. -/
def incrementLoop (fs : FS) (name : String) (d : Int) (fpath : String) :
    Except String (String × Nat) :=
  incrementLoopAux fs name d 100 fpath 0

/-- `TimeStream.write_metadata` (lines 335-346) for version 1: persist
both JSON side-tables. -/
def TimeStream.writeMetadata (ts : TimeStream) (fs : FS) : FS :=
  let fs := fs.write (ts.image_db_path.getD "") (.jsonTable ts.image_data)
  fs.write (ts.db_path.getD "") (.jsonTable ts.data)

/-- The write tail of `write_image` (lines 283-292), shared by the
no-conflict, `overwrite` and `increment` paths: extend the recorded
start/end bounds when the timestamp lies outside them, record the
per-frame metadata, persist both side-tables, write the image bytes at
`fpath` (with overwrite forced to `True`), and write the stripped
pickled frame beside the side-tables. -/
def writeTail (ts : TimeStream) (fs : FS) (img : WImage) (fpath : String) :
    Except String (TimeStream × FS × WriteOutcome) := do
  let ts :=
    match ts.end_datetime with
    | some e => if img.datetime > e then { ts with end_datetime := some img.datetime } else ts
    | none => ts
  let ts :=
    match ts.start_datetime with
    | some s => if img.datetime < s then { ts with start_datetime := some img.datetime } else ts
    | none => ts
  let key := toString img.datetime
  let ts := { ts with image_data :=
    (key, String.intercalate ";" (img.data.map (fun q => q.1 ++ "=" ++ q.2)))
      :: ts.image_data.filter (fun q => q.1 != key) }
  let fs := ts.writeMetadata fs
  let fs := fs.write fpath (.imageBytes (img.pixels.getD ""))
  let pp ← tsDateToPath (.vstr (ts.name.getD "")) (.vstr "p")
             (.vdate img.datetime) (.vint 0)
  let pPath := ts.data_dir.getD "" ++ "/" ++ pp
  let fs := fs.write pPath (.pickled img.datetime)
  .ok (ts, fs, .written fpath)

/-- Embedding of `TimeStream.write_image` (lines 232-295): the guard
checks, the canonical path for the frame's timestamp, the four overwrite
policies on a conflict, and the shared write tail.  Version 2 is
unimplemented. -/
def TimeStream.write_image (ts : TimeStream) (fs : FS) (img : WImage)
    (mode : String) : Except String (TimeStream × FS × WriteOutcome) := do
  if optFalsy ts.name then
    .error "write_image() must be called on instance with valid name"
  else if optFalsy ts.path then
    .error "write_image() must be called on instance with valid path"
  else if ¬ (["skip", "increment", "overwrite", "raise"].contains mode) then
    .error "Invalid overwrite_mode"
  else if img.pixels = none then
    .error "Image must have pixels to be able to be written"
  else if ts.version = some 1 then do
    let fp0 ← tsDateToPath (.vstr (ts.name.getD "")) (.vstr (ts.extension.getD ""))
                (.vdate img.datetime) (.vint 0)
    let fpath := ts.path.getD "" ++ "/" ++ fp0
    if fs.fileExists fpath then
      match mode with
      | "skip" => .ok (ts, fs, .skipped)
      | "increment" => do
        let (fp2, _) ← incrementLoop fs (ts.name.getD "") img.datetime fpath
        if fs.fileExists fp2 then
          .error "Too many images at timepoint"
        else
          writeTail ts fs img fp2
      | "raise" => .error "Image already exists"
      | _ => writeTail ts fs img fpath
    else
      writeTail ts fs img fpath
  else
    .error "v2 timestreams not implemented yet"

/-! ## Pipeline executor and per-series driver
(src/scripts/run_pipeline.py lines 240-270) -/

/-- A value flowing through the pipeline: a resolved frame, a captured
component exception (`PCException` substituted as the pipeline input,
run_pipeline.py lines 256-258), or a stage output. -/
inductive PVal where
  | frame (t : Nat)
  | errObj (t : Nat)
  | out (n : Nat)
deriving Repr, DecidableEq

/-- A pipeline stage: a component call receiving the positional outputs
of its predecessor and either returning its outputs or raising a
component-level error (`PCException`). -/
def Stage := List PVal → Except Unit (List PVal)

/-- Modelled from the spec: `ImagePipeline.process`
(`timestream.manipulate.pipeline`) is not under src/.  Per §4.2 the
executor "runs the stage list in declared order for one frame: the first
stage receives `[frame]` as its sole positional input; each subsequent
stage receives exactly the positional outputs of its predecessor", and a
stage failing with a component-level error aborts the rest of the run for
that frame.  The trace of executed stage indices (starting at `idx`) is
returned alongside the outcome. -/
def runStagesFrom (stages : List Stage) (idx : Nat) (input : List PVal) :
    List Nat × Except Unit (List PVal) :=
  match stages with
  | [] => ([], .ok input)
  | s :: rest =>
    match s input with
    | .ok outs =>
      let r := runStagesFrom rest (idx + 1) outs
      (idx :: r.1, r.2)
    | .error e => ([idx], .error e)

/-- `ImagePipeline.process` for one frame: run the stages from index 0 on
the single positional input `[img]`. -/
def processPipeline (stages : List Stage) (img : PVal) :
    List Nat × Except Unit (List PVal) :=
  runStagesFrom stages 0 [img]

/-- What the driver records for one timestamp: the executed stage trace
and whether the pipeline raised a component error there (in the source
the failure is logged and the loop continues with `continue`). -/
structure FrameRecord where
  timestamp : Nat
  trace : List Nat
  failedLogged : Bool
deriving Repr, DecidableEq

/-- Embedding of `PipelineRunner.runPipeline` (run_pipeline.py lines
245-270) over the timestamp index: for each timestamp resolve the frame
(`resolve`, standing for `getImgByTimeStamp` with a `PCException`
captured into an `errObj` value, lines 251-258), run the executor under
the `try/except PCException` that logs and continues (lines 260-264),
and record the result.  The cooperative `self.running` flag is only ever
cleared from outside the single-threaded loop, so it stays `True`
throughout one run and the loop visits every index. -/
def runPipelineDriver (stages : List Stage) (resolve : Nat → PVal) :
    List Nat → List FrameRecord
  | [] => []
  | t :: rest =>
    let img := resolve t
    let r := processPipeline stages img
    ⟨t, r.1, match r.2 with | .ok _ => false | .error _ => true⟩
      :: runPipelineDriver stages resolve rest

/-! ## Helper lemmas -/

theorem trimRowsAlt_h (k : Nat) : ∀ (m : Np2) (side : Bool),
    (trimRowsAlt m side k).h = m.h - k := by
  induction k with
  | zero => intro m side; rfl
  | succ n ih =>
    intro m side
    show (trimRowsAlt (if side then dropTopRow m else dropBotRow m) (!side) n).h = _
    cases side <;> simp [ih, dropTopRow, dropBotRow] <;> omega

theorem trimRowsAlt_w (k : Nat) : ∀ (m : Np2) (side : Bool),
    (trimRowsAlt m side k).w = m.w := by
  induction k with
  | zero => intro m side; rfl
  | succ n ih =>
    intro m side
    show (trimRowsAlt (if side then dropTopRow m else dropBotRow m) (!side) n).w = _
    cases side <;> simp [ih, dropTopRow, dropBotRow]

theorem padRowsAlt_h (k : Nat) : ∀ (m : Np2) (side : Bool),
    (padRowsAlt m side k).h = m.h + k := by
  induction k with
  | zero => intro m side; rfl
  | succ n ih =>
    intro m side
    show (padRowsAlt (if side then padTopRow m else padBotRow m) (!side) n).h = _
    cases side <;> simp [ih, padTopRow, padBotRow] <;> omega

theorem padRowsAlt_w (k : Nat) : ∀ (m : Np2) (side : Bool),
    (padRowsAlt m side k).w = m.w := by
  induction k with
  | zero => intro m side; rfl
  | succ n ih =>
    intro m side
    show (padRowsAlt (if side then padTopRow m else padBotRow m) (!side) n).w = _
    cases side <;> simp [ih, padTopRow, padBotRow]

theorem trimColsAlt_w (k : Nat) : ∀ (m : Np2) (side : Bool),
    (trimColsAlt m side k).w = m.w - k := by
  induction k with
  | zero => intro m side; rfl
  | succ n ih =>
    intro m side
    show (trimColsAlt (if side then dropLeftCol m else dropRightCol m) (!side) n).w = _
    cases side <;> simp [ih, dropLeftCol, dropRightCol] <;> omega

theorem trimColsAlt_h (k : Nat) : ∀ (m : Np2) (side : Bool),
    (trimColsAlt m side k).h = m.h := by
  induction k with
  | zero => intro m side; rfl
  | succ n ih =>
    intro m side
    show (trimColsAlt (if side then dropLeftCol m else dropRightCol m) (!side) n).h = _
    cases side <;> simp [ih, dropLeftCol, dropRightCol]

theorem padColsAlt_w (k : Nat) : ∀ (m : Np2) (side : Bool),
    (padColsAlt m side k).w = m.w + k := by
  induction k with
  | zero => intro m side; rfl
  | succ n ih =>
    intro m side
    show (padColsAlt (if side then padLeftCol m else padRightCol m) (!side) n).w = _
    cases side <;> simp [ih, padLeftCol, padRightCol] <;> omega

theorem padColsAlt_h (k : Nat) : ∀ (m : Np2) (side : Bool),
    (padColsAlt m side k).h = m.h := by
  induction k with
  | zero => intro m side; rfl
  | succ n ih =>
    intro m side
    show (padColsAlt (if side then padLeftCol m else padRightCol m) (!side) n).h = _
    cases side <;> simp [ih, padLeftCol, padRightCol]

/-- The reshaping policy always produces the requested shape. -/
theorem fitPrevMask_shape (h1 w1 : Nat) (pm : Np2) :
    (fitPrevMask h1 w1 pm).h = h1 ∧ (fitPrevMask h1 w1 pm).w = w1 := by
  unfold fitPrevMask
  dsimp only
  split_ifs <;>
    simp_all [trimRowsAlt_h, trimRowsAlt_w, padRowsAlt_h, padRowsAlt_w,
      trimColsAlt_h, trimColsAlt_w, padColsAlt_h, padColsAlt_w] <;>
    omega

/-! ## Claim theorems -/

/-- C3: in the mask-fallback path, whenever the segmentation strategy
yields a mask with no foreground (`containsOne msk = false`) and a
predecessor exists, the substituted mask produced from the predecessor's
mask by the alternating one-row/one-column trim-or-pad policy has exactly
the current mask's shape `(msk.h, msk.w)`, for every combination of signs
of the two shape differences (the predecessor's shape `pm` is universally
quantified). -/
theorem getSegmented_fallback_has_current_shape (msk pm : Np2)
    (hbad : containsOne msk = false) :
    (getSegmented msk (some pm)).h = msk.h ∧
    (getSegmented msk (some pm)).w = msk.w := by
  unfold getSegmented
  rw [hbad]
  simpa using fitPrevMask_shape msk.h msk.w pm

/-- Witness for C3: a concrete all-background 2x3 segmentation output and
a 5x1 predecessor mask; the fallback result has shape (2,3). -/
theorem getSegmented_fallback_has_current_shape_witness :
    containsOne ⟨2, 3, fun _ _ => 0⟩ = false ∧
    ((getSegmented ⟨2, 3, fun _ _ => 0⟩ (some ⟨5, 1, fun _ _ => 1⟩)).h = 2 ∧
     (getSegmented ⟨2, 3, fun _ _ => 0⟩ (some ⟨5, 1, fun _ _ => 1⟩)).w = 3) :=
  ⟨rfl, getSegmented_fallback_has_current_shape ⟨2, 3, fun _ _ => 0⟩
     ⟨5, 1, fun _ _ => 1⟩ rfl⟩

/-- C1: evaluation of the embedded `next`/`prev` on the index
`[t0, t1, t2] = [10, 20, 30]`.  The two boundary examples of the spec
hold (`next` at cursor 2 yields `t0`, `prev` at cursor 0 yields `t2`),
but `next` at cursor 0 yields the frame at `t0` again, with the cursor
left at 0 — not the frame at `t((0+1) mod 3) = t1` — because the source
only ever resets the offset at the wrap boundary and never increments or
decrements it (lines 540-550).  Likewise `prev` at cursor 2 stays at 2. -/
theorem traverser_next_never_advances :
    (Traverser.next ⟨[10, 20, 30], 2⟩).2 = some 10 ∧
    (Traverser.prev ⟨[10, 20, 30], 0⟩).2 = some 30 ∧
    (Traverser.next ⟨[10, 20, 30], 0⟩).2 = some 10 ∧
    (Traverser.next ⟨[10, 20, 30], 0⟩).1.offset = 0 ∧
    ¬ (Traverser.next ⟨[10, 20, 30], 0⟩).2 = some 20 ∧
    (Traverser.prev ⟨[10, 20, 30], 2⟩).2 = some 30 ∧
    (Traverser.prev ⟨[10, 20, 30], 2⟩).1.offset = 2 := by
  decide

/-- C9: the `__getitem__` range guard rejects with the documented range
`IndexError` exactly the indices `i < 0` or `i > 4`; in particular index
4 passes the guard even though a constructed rectangle stores exactly 4
bounds (valid positions 0-3), so `region[4]` reaches the underlying
numpy array and fails there, not in the documented-range check. -/
theorem getitem_range_guard_off_by_one (r : ImagePotRectangle) (i : Int) :
    (r.getitem i = .error rectangleRangeGuardMsg ↔ (i < 0 ∨ i > 4)) ∧
    r.getitem 4 ≠ .error rectangleRangeGuardMsg ∧
    (r.rect.length = 4 →
      r.getitem 4 = .error "numpy: index out of bounds for axis 0") := by
  refine ⟨⟨?_, ?_⟩, ?_, ?_⟩
  · intro hEq
    by_cases h : i > 4 ∨ i < 0
    · tauto
    · exfalso
      unfold ImagePotRectangle.getitem at hEq
      rw [if_neg h] at hEq
      cases hg : r.rect.get? i.toNat with
      | some v => rw [hg] at hEq; exact Except.noConfusion hEq
      | none =>
        rw [hg] at hEq
        have : "numpy: index out of bounds for axis 0" = rectangleRangeGuardMsg :=
          Except.error.inj hEq
        simp [rectangleRangeGuardMsg] at this
  · intro h
    unfold ImagePotRectangle.getitem
    rw [if_pos (by tauto)]
  · intro hEq
    unfold ImagePotRectangle.getitem at hEq
    rw [if_neg (by omega)] at hEq
    cases hg : r.rect.get? (4 : Int).toNat with
    | some v => rw [hg] at hEq; exact Except.noConfusion hEq
    | none =>
      rw [hg] at hEq
      have : "numpy: index out of bounds for axis 0" = rectangleRangeGuardMsg :=
        Except.error.inj hEq
      simp [rectangleRangeGuardMsg] at this
  · intro hlen
    unfold ImagePotRectangle.getitem
    rw [if_neg (by omega)]
    have : r.rect.get? (4 : Int).toNat = none := by
      apply List.get?_eq_none.mpr
      omega
    rw [this]

/-- Witness for C9 (for the hypothesis-bearing conjunct): on the concrete
rectangle `[1,2,3,4]` bound to a 10x10 frame, index 4 produces the numpy
out-of-bounds error, not the documented range guard. -/
theorem getitem_range_guard_off_by_one_witness :
    ImagePotRectangle.getitem ⟨[1, 2, 3, 4], 10, 10⟩ 4
      = .error "numpy: index out of bounds for axis 0" ∧
    ImagePotRectangle.getitem ⟨[1, 2, 3, 4], 10, 10⟩ 4
      ≠ .error rectangleRangeGuardMsg :=
  ⟨(getitem_range_guard_off_by_one ⟨[1, 2, 3, 4], 10, 10⟩ 4).2.2 rfl,
   (getitem_range_guard_off_by_one ⟨[1, 2, 3, 4], 10, 10⟩ 4).2.1⟩

/-- C2: `increaseRect`/`reduceRect` never succeed.  The derived bounds
are handed to the `rect` setter as a numpy array (`asList` returns the
internal numpy `_rect`), and the setter's non-list branch evaluates the
one-argument call `isinstance(ImagePotRectangle)`, which raises
`TypeError` unconditionally — even here, where the pot `[10,10,20,20]`
in a 100x100 frame expanded by 5 to `[5,5,25,25]` stays well within the
bound frame (third conjunct), so the claimed success case never happens:
the Region is not replaced and the cached mask is not reset. -/
theorem increaseRect_always_raises :
    increaseRect ⟨[100, 100, 3], ⟨[10, 10, 20, 20], 100, 100⟩, negOnes 10 10⟩ 5
      = .error "isinstance expected 2 arguments, got 1" ∧
    reduceRect ⟨[100, 100, 3], ⟨[10, 10, 20, 20], 100, 100⟩, negOnes 10 10⟩ 2
      = .error "isinstance expected 2 arguments, got 1" ∧
    mkImagePotRectangle [5, 5, 25, 25] [100, 100, 3] 100
      = .ok ⟨[5, 5, 25, 25], 100, 100⟩ := by
  refine ⟨rfl, rfl, rfl⟩

/-- C4 counterexample: constructing a Region from the explicit corners
`[50, 50, 10, 10]` in a 100x100 frame succeeds even though
`left = 50 >= right = 10` (and `top = 50 >= bottom = 10`) — the
constructor checks only non-negativity and the frame bounds, never the
corner ordering, so the claimed `left < right` / `top < bottom`
invariant and the claimed validation failure do not hold. -/
theorem mkImagePotRectangle_accepts_disordered_corners :
    mkImagePotRectangle [50, 50, 10, 10] [100, 100, 3] 100
      = .ok ⟨[50, 50, 10, 10], 100, 100⟩ ∧
    ¬ ((50 : Int) < 10) := ⟨rfl, by omega⟩

/-- C4 (amended): every successfully constructed Region has exactly four
bounds `[x1, y1, x2, y2]` with `0 <= x1 <= width`, `0 <= x2 <= width`,
`0 <= y1 <= height`, `0 <= y2 <= height`; the relative order of the two
corners is not validated. -/
theorem mkImagePotRectangle_bounds_within_frame (rectDesc imgSize : List Int)
    (growM : Int) (r : ImagePotRectangle)
    (h : mkImagePotRectangle rectDesc imgSize growM = .ok r) :
    ∃ x1 y1 x2 y2, r.rect = [x1, y1, x2, y2] ∧
      0 ≤ x1 ∧ 0 ≤ y1 ∧ 0 ≤ x2 ∧ 0 ≤ y2 ∧
      x1 ≤ r.imgwidth ∧ x2 ≤ r.imgwidth ∧
      y1 ≤ r.imgheight ∧ y2 ≤ r.imgheight := by
  unfold mkImagePotRectangle at h
  split_ifs at h with h1 h2 h3 h4
  · -- rectDesc has length 4
    dsimp only at h
    split_ifs at h with h5
    obtain ⟨a, b, c, d, rfl⟩ : ∃ a b c d, rectDesc = [a, b, c, d] := by
      rcases rectDesc with _ | ⟨a, _ | ⟨b, _ | ⟨c, _ | ⟨d, _ | ⟨e, tl⟩⟩⟩⟩⟩ <;>
        first
          | exact ⟨_, _, _, _, rfl⟩
          | (exfalso; simp at h4; try omega)
    obtain rfl := Except.ok.inj h
    refine ⟨a, b, c, d, rfl, ?_⟩
    simp only [List.getD_cons_zero, List.getD_cons_succ] at h5
    simp at h5
    dsimp only
    simp only [List.getD_eq_getElem?_getD]
    omega
  · -- rectDesc has length 2: center grown by growM
    dsimp only at h
    split_ifs at h with h5
    obtain rfl := Except.ok.inj h
    refine ⟨_, _, _, _, rfl, ?_⟩
    simp only [List.getD_cons_zero, List.getD_cons_succ] at h5
    simp at h5
    dsimp only
    simp only [List.getD_eq_getElem?_getD]
    omega

/-- Witness for C4 (amended): the disordered-but-in-frame rectangle
`[50, 50, 10, 10]` in a 100x100 frame satisfies the amended bounds. -/
theorem mkImagePotRectangle_bounds_within_frame_witness :
    ∃ x1 y1 x2 y2,
      (⟨[50, 50, 10, 10], 100, 100⟩ : ImagePotRectangle).rect = [x1, y1, x2, y2] ∧
      0 ≤ x1 ∧ 0 ≤ y1 ∧ 0 ≤ x2 ∧ 0 ≤ y2 ∧
      x1 ≤ (⟨[50, 50, 10, 10], 100, 100⟩ : ImagePotRectangle).imgwidth ∧
      x2 ≤ (⟨[50, 50, 10, 10], 100, 100⟩ : ImagePotRectangle).imgwidth ∧
      y1 ≤ (⟨[50, 50, 10, 10], 100, 100⟩ : ImagePotRectangle).imgheight ∧
      y2 ≤ (⟨[50, 50, 10, 10], 100, 100⟩ : ImagePotRectangle).imgheight :=
  mkImagePotRectangle_bounds_within_frame [50, 50, 10, 10] [100, 100, 3] 100
    ⟨[50, 50, 10, 10], 100, 100⟩ rfl

/-- C5: constructing a Region from the two-element descriptor `[x, y]`
with grow margin `m > 0` in a frame of height `h >= 1` and width
`w >= 1` yields exactly `[x-m, y-m, x+m, y+m]` when all four resulting
bounds lie within the bound frame, and fails with the validation error
when any resulting bound is negative or exceeds the frame's dimensions
(x-bounds against the width, y-bounds against the height — the exact
check of pot.py lines 62-65). -/
theorem mkImagePotRectangle_center_grow (x y m h w : Int)
    (hh : 1 ≤ h) (hw : 1 ≤ w) (hm : 0 < m) :
    (¬ (x - m < 0 ∨ y - m < 0 ∨ x + m < 0 ∨ y + m < 0 ∨
        y - m > h ∨ y + m > h ∨ x - m > w ∨ x + m > w) →
      mkImagePotRectangle [x, y] [h, w] m
        = .ok ⟨[x - m, y - m, x + m, y + m], w, h⟩) ∧
    ((x - m < 0 ∨ y - m < 0 ∨ x + m < 0 ∨ y + m < 0 ∨
        y - m > h ∨ y + m > h ∨ x - m > w ∨ x + m > w) →
      mkImagePotRectangle [x, y] [h, w] m
        = .error "Rectangle is outside containing image dims.") := by
  have key : mkImagePotRectangle [x, y] [h, w] m =
      if x - m < 0 ∨ y - m < 0 ∨ x + m < 0 ∨ y + m < 0 ∨
         y - m > h ∨ y + m > h ∨ x - m > w ∨ x + m > w
      then .error "Rectangle is outside containing image dims."
      else .ok ⟨[x - m, y - m, x + m, y + m], w, h⟩ := by
    unfold mkImagePotRectangle
    dsimp only
    rw [if_neg (by simp)]
    rw [if_neg (show ¬((List.take 2 [h, w]).any (fun v => v < 1) = true) by
      simp; omega)]
    rw [if_neg (by simp)]
    rw [if_neg (show ¬(([x, y] : List Int).length = 4) by simp)]
    simp only [List.getD_cons_zero, List.getD_cons_succ]
    split_ifs with hc1 hc2 <;> first | rfl | (exfalso; simp at hc1; omega)
  constructor
  · intro hin
    rw [key, if_neg hin]
  · intro hout
    rw [key, if_pos hout]

/-- Witness for C5: center `(30, 40)` grown by 10 in a 100x100 frame. -/
theorem mkImagePotRectangle_center_grow_witness :
    mkImagePotRectangle [30, 40] [100, 100] 10
      = .ok ⟨[20, 30, 40, 50], 100, 100⟩ ∧
    mkImagePotRectangle [95, 40] [100, 100] 10
      = .error "Rectangle is outside containing image dims." :=
  ⟨(mkImagePotRectangle_center_grow 30 40 10 100 100 (by omega) (by omega)
      (by omega)).1 (by omega),
   (mkImagePotRectangle_center_grow 95 40 10 100 100 (by omega) (by omega)
      (by omega)).2 (by omega)⟩

theorem hLookup_hUpdate_self (h : HHeap) (a : Nat) (f : HRec → HRec) :
    hLookup (hUpdate h a f) a = (hLookup h a).map f := by
  induction h with
  | nil => rfl
  | cons p t ih =>
    by_cases hp : p.1 = a
    · simp [hLookup, hUpdate, List.find?, hp]
    · have hpb : (p.1 == a) = false := by simpa using hp
      simp only [hUpdate, hpb, Bool.false_eq_true, if_false, hLookup,
        List.find?, hpb]
      simpa [hLookup] using ih

theorem hLookup_hUpdate_ne (h : HHeap) (a b : Nat) (f : HRec → HRec)
    (hne : a ≠ b) : hLookup (hUpdate h a f) b = hLookup h b := by
  induction h with
  | nil => rfl
  | cons p t ih =>
    by_cases hp : p.1 = a
    · subst hp
      have hb : (p.1 == b) = false := by simpa using hne
      simp only [hUpdate, beq_self_eq_true, if_true, hLookup, List.find?, hb]
      simpa [hLookup] using ih
    · have hpb : (p.1 == a) = false := by simpa using hp
      by_cases hq : p.1 = b
      · have hqb : (p.1 == b) = true := by simpa using hq
        simp [hUpdate, hpb, hLookup, List.find?, hqb]
      · have hqb : (p.1 == b) = false := by simpa using hq
        simp only [hUpdate, hpb, Bool.false_eq_true, if_false, hLookup,
          List.find?, hqb]
        simpa [hLookup] using ih

theorem mLookup_mUpdate_self (h : MHeap) (a : Nat) (f : MRec → MRec) :
    mLookup (mUpdate h a f) a = (mLookup h a).map f := by
  induction h with
  | nil => rfl
  | cons p t ih =>
    by_cases hp : p.1 = a
    · simp [mLookup, mUpdate, List.find?, hp]
    · have hpb : (p.1 == a) = false := by simpa using hp
      simp only [mUpdate, hpb, Bool.false_eq_true, if_false, mLookup,
        List.find?, hpb]
      simpa [mLookup] using ih

/-- C6 counterexample: the predecessor-chain depth bound does not hold in
every reachable state.  Build handlers 3 and 2 with no predecessor, then
handler 1 with predecessor 2 (clearing 2's own link), then re-link via
the setter: `handler2.iphPrev = handler3`.  Every step is a constructor
or setter call of the source, yet afterwards handler 1 still references
handler 2, which now references handler 3 — a two-generation chain. -/
theorem handler_chain_depth_two_reachable :
    prevOf (setIphPrev (newHandler (newHandler (newHandler ([] : HHeap) 3 true none)
        2 true none) 1 true (some 2)) 2 (some 3)) 1 = some 2 ∧
    prevOf (setIphPrev (newHandler (newHandler (newHandler ([] : HHeap) 3 true none)
        2 true none) 1 true (some 2)) 2 (some 3)) 2 = some 3 := by
  decide

/-- C6 (amended): every linking operation — handler construction with a
predecessor, the `iphPrev` setter, and matrix construction with a
predecessor — clears the newly linked predecessor's own predecessor link,
and for handlers also its segmentation strategy; this bounds the chain
below the newly linked predecessor immediately after the operation, but
(per the counterexample) not in every reachable state. -/
theorem linking_clears_predecessor_link (h : HHeap) (mh : MHeap)
    (a b c : Nat) (ps : Bool) (r : HRec) (mr : MRec)
    (hb : hLookup h b = some r) (hc : mLookup mh c = some mr) :
    hLookup (setIphPrev h a (some b)) b = some ⟨none, false⟩ ∧
    hLookup (newHandler h a ps (some b)) b = some ⟨none, false⟩ ∧
    mLookup (newMatrix mh a (some c)) c = some ⟨none⟩ := by
  refine ⟨?_, ?_, ?_⟩
  · unfold setIphPrev
    rw [hLookup_hUpdate_self]
    by_cases hab : a = b
    · subst hab
      rw [hLookup_hUpdate_self, hb]
      rfl
    · rw [hLookup_hUpdate_ne h a b _ hab, hb]
      rfl
  · unfold newHandler
    rw [hLookup_hUpdate_self]
    by_cases hab : a = b
    · subst hab
      simp [hLookup, List.find?]
    · have hzb : ((a, (⟨some b, ps⟩ : HRec)).1 == b) = false := by simpa using hab
      simp only [hLookup, List.find?, hzb]
      have hfind : (List.find? (fun p => p.1 == b) h).map (fun p => p.2)
          = some r := hb
      cases hf : List.find? (fun p => p.1 == b) h with
      | none => rw [hf] at hfind; simp at hfind
      | some q => rfl
  · unfold newMatrix
    rw [mLookup_mUpdate_self]
    by_cases hac : a = c
    · subst hac
      simp [mLookup, List.find?]
    · have hzc : ((a, (⟨some c⟩ : MRec)).1 == c) = false := by simpa using hac
      simp only [mLookup, List.find?, hzc]
      have hfind : (List.find? (fun p => p.1 == c) mh).map (fun p => p.2)
          = some mr := hc
      cases hf : List.find? (fun p => p.1 == c) mh with
      | none => rw [hf] at hfind; simp at hfind
      | some q => rfl

/-- Witness for C6 (amended): a concrete one-entry handler heap and
one-entry matrix heap; after linking, the predecessors are cleared. -/
theorem linking_clears_predecessor_link_witness :
    hLookup (setIphPrev [(2, ⟨some 9, true⟩)] 1 (some 2)) 2
      = some ⟨none, false⟩ ∧
    hLookup (newHandler [(2, ⟨some 9, true⟩)] 1 true (some 2)) 2
      = some ⟨none, false⟩ ∧
    mLookup (newMatrix [(7, ⟨some 9⟩)] 1 (some 7)) 7 = some ⟨none⟩ :=
  linking_clears_predecessor_link [(2, ⟨some 9, true⟩)] [(7, ⟨some 9⟩)]
    1 2 7 true ⟨some 9, true⟩ ⟨some 9⟩ rfl rfl

/-- C10: `TimeStream.create` with a non-None `name` argument never
assigns the archive's name: the `if name is None` branch (line 220) has
no `else`, so the basename fallback is the only assignment and an
explicitly supplied name is silently ignored; on a fresh instance the
name stays unset (`None`). -/
theorem create_ignores_explicit_name (fs : FS) (tsPath : String)
    (version : Int) (ext : String) (ty : Option String) (startD endD : Int)
    (n : String) (ts' : TimeStream) (fs' : FS)
    (h : TimeStream.create TimeStream.init fs tsPath version ext ty
          startD endD (some n) = .ok (ts', fs')) :
    ts'.name = none := by
  unfold TimeStream.create at h
  cases hv : TimeStream.init.setVersion version with
  | error e => rw [hv] at h; exact Except.noConfusion h
  | ok ts0 =>
    rw [hv] at h
    have h0 : ts0.name = none := by
      unfold TimeStream.setVersion at hv
      split_ifs at hv
      cases hv
      rfl
    dsimp only at h
    split_ifs at h with hp hq <;>
      (cases hty : ty with
       | some t =>
         rw [hty] at h
         dsimp only at h
         obtain ⟨h1, h2⟩ := Prod.mk.injEq .. ▸ Except.ok.inj h
         subst h1
         simpa [TimeStream.setPath] using h0
       | none =>
         rw [hty] at h
         dsimp only at h
         cases hf : (imageExtToType.find? (fun q => q.1 == ext)).map
             (fun q => q.2) with
         | some t =>
           rw [hf] at h
           obtain ⟨h1, h2⟩ := Prod.mk.injEq .. ▸ Except.ok.inj h
           subst h1
           simpa [TimeStream.setPath] using h0
         | none => rw [hf] at h; exact Except.noConfusion h)

/-- Witness for C10: creating a fresh version-1 archive at `./ts` with
the explicit name `"myname"`; the resulting archive's name is `None`. -/
theorem create_ignores_explicit_name_witness :
    (⟨some 1, some "./ts", none, some 0, some 0, some "png", some "png",
      none, [], [], some "./ts/_data/image_data.json",
      some "./ts/_data/timestream_data.json", some "./ts/_data"⟩ :
        TimeStream).name = none :=
  create_ignores_explicit_name ⟨["."], []⟩ "ts" 1 "png" none 0 0 "myname"
    ⟨some 1, some "./ts", none, some 0, some 0, some "png", some "png",
      none, [], [], some "./ts/_data/image_data.json",
      some "./ts/_data/timestream_data.json", some "./ts/_data"⟩
    ⟨["./ts/_data", "./ts", "."], []⟩ (by rfl)

/-- C7: evaluation of `write_image` on a version-1 archive whose
canonical target path `./ts/ts_5_0.png` is already occupied.  Under
`"skip"` the call returns with the filesystem, recorded bounds and
metadata side-tables unchanged; under `"raise"` it fails without
modification; but under `"increment"` it does not write to a new
disambiguated path: the loop recomputes the path via
`_ts_date_to_path(self.name, image.datetime, subsec)` (line 269),
dropping the extension argument, so the encoder's date parameter
receives the integer counter and the call fails the way `strftime` on a
non-date fails — no incremented write ever happens. -/
theorem write_image_overwrite_policies :
    TimeStream.write_image
      ⟨some 1, some "./ts", some "ts", some 5, some 5, some "png",
       some "png", none, [], [], some "./ts/_data/image_data.json",
       some "./ts/_data/timestream_data.json", some "./ts/_data"⟩
      ⟨["./ts", "./ts/_data", "."],
       [("./ts/ts_5_0.png", .imageBytes "original")]⟩
      ⟨5, some "newpixels", []⟩ "skip"
    = .ok (⟨some 1, some "./ts", some "ts", some 5, some 5, some "png",
            some "png", none, [], [], some "./ts/_data/image_data.json",
            some "./ts/_data/timestream_data.json", some "./ts/_data"⟩,
           ⟨["./ts", "./ts/_data", "."],
            [("./ts/ts_5_0.png", .imageBytes "original")]⟩, .skipped) ∧
    TimeStream.write_image
      ⟨some 1, some "./ts", some "ts", some 5, some 5, some "png",
       some "png", none, [], [], some "./ts/_data/image_data.json",
       some "./ts/_data/timestream_data.json", some "./ts/_data"⟩
      ⟨["./ts", "./ts/_data", "."],
       [("./ts/ts_5_0.png", .imageBytes "original")]⟩
      ⟨5, some "newpixels", []⟩ "raise"
    = .error "Image already exists" ∧
    TimeStream.write_image
      ⟨some 1, some "./ts", some "ts", some 5, some 5, some "png",
       some "png", none, [], [], some "./ts/_data/image_data.json",
       some "./ts/_data/timestream_data.json", some "./ts/_data"⟩
      ⟨["./ts", "./ts/_data", "."],
       [("./ts/ts_5_0.png", .imageBytes "original")]⟩
      ⟨5, some "newpixels", []⟩ "increment"
    = .error "AttributeError: object has no attribute strftime" :=
  ⟨rfl, rfl, rfl⟩

/-- On failure, the executor's trace is the contiguous prefix of stage
indices up to and including the failing stage. -/
theorem runStagesFrom_trace (stages : List Stage) : ∀ (idx : Nat)
    (input : List PVal),
    ∃ m, m ≤ stages.length ∧
      (runStagesFrom stages idx input).1 = List.range' idx m ∧
      ((runStagesFrom stages idx input).2 = .error () → 1 ≤ m) := by
  induction stages with
  | nil =>
    intro idx input
    exact ⟨0, by simp, rfl, by simp [runStagesFrom]⟩
  | cons s rest ih =>
    intro idx input
    cases hs : s input with
    | error e =>
      refine ⟨1, by simp, ?_, fun _ => le_refl 1⟩
      simp [runStagesFrom, hs, List.range']
    | ok outs =>
      obtain ⟨m, hm, htr, _⟩ := ih (idx + 1) outs
      refine ⟨m + 1, by simpa using hm, ?_, fun _ => by omega⟩
      simp [runStagesFrom, hs, htr, List.range']

/-- C8: the per-series driver is never aborted by a component-level
stage failure.  For every stage list, frame resolver and timestamp
index: (1) the driver produces a record for every timestamp in order —
timestamps after a failed one are still processed; (2) at every
timestamp where the pipeline raised a component error, the failure is
recorded (logged) and the executed-stage trace is exactly the stages up
to the failing index `j` — no stage after `j` executes for that frame. -/
theorem driver_continues_after_stage_failure (stages : List Stage)
    (resolve : Nat → PVal) (tss : List Nat) :
    ((runPipelineDriver stages resolve tss).map FrameRecord.timestamp = tss) ∧
    (∀ r ∈ runPipelineDriver stages resolve tss, r.failedLogged = true →
       ∃ j, j < stages.length ∧ r.trace = List.range (j + 1) ∧
         ∀ k, j < k → k ∉ r.trace) := by
  induction tss with
  | nil => exact ⟨rfl, by simp [runPipelineDriver]⟩
  | cons t rest ih =>
    constructor
    · simpa [runPipelineDriver] using ih.1
    · intro r hr hfail
      simp only [runPipelineDriver, List.mem_cons] at hr
      cases hr with
      | inr htail => exact ih.2 r htail hfail
      | inl hhead =>
        subst hhead
        simp only [FrameRecord.failedLogged] at hfail
        obtain ⟨m, hm, htr, herr⟩ := runStagesFrom_trace stages 0 [resolve t]
        have h2 : (processPipeline stages (resolve t)).2 = .error () := by
          revert hfail
          cases hres : (processPipeline stages (resolve t)).2 with
          | ok v => simp [hres]
          | error e => cases e; simp [hres]
        have hm1 : 1 ≤ m := herr h2
        refine ⟨m - 1, by omega, ?_, ?_⟩
        · show (processPipeline stages (resolve t)).1 = _
          rw [show m - 1 + 1 = m by omega]
          rw [List.range_eq_range']
          exact htr
        · intro k hk hmem
          show False
          have htr' : (processPipeline stages (resolve t)).1
              = List.range' 0 m := htr
          rw [show (⟨t, (processPipeline stages (resolve t)).1, _⟩ :
                FrameRecord).trace = (processPipeline stages (resolve t)).1
              from rfl] at hmem
          rw [htr', List.range'_eq_map_range] at hmem
          simp only [List.mem_map, List.mem_range] at hmem
          omega

/-- Witness for C8: a three-stage pipeline over timestamps `[0, 1, 2]`
whose second stage (index 1) fails exactly on the frame of timestamp 1:
every timestamp is processed, and for the failed frame the trace is
`[0, 1]` — stage 2 never ran there. -/
theorem driver_continues_after_stage_failure_witness :
    ((runPipelineDriver
        [fun inp => .ok inp,
         fun inp => if inp = [PVal.frame 1] then .error () else .ok inp,
         fun _ => .ok [PVal.out 2]]
        PVal.frame [0, 1, 2]).map FrameRecord.timestamp = [0, 1, 2]) ∧
    (∃ j, j < 3 ∧
      (⟨1, [0, 1], true⟩ : FrameRecord).trace = List.range (j + 1) ∧
      ∀ k, j < k → k ∉ (⟨1, [0, 1], true⟩ : FrameRecord).trace) :=
  ⟨(driver_continues_after_stage_failure
      [fun inp => .ok inp,
       fun inp => if inp = [PVal.frame 1] then .error () else .ok inp,
       fun _ => .ok [PVal.out 2]] PVal.frame [0, 1, 2]).1,
   (driver_continues_after_stage_failure
      [fun inp => .ok inp,
       fun inp => if inp = [PVal.frame 1] then .error () else .ok inp,
       fun _ => .ok [PVal.out 2]] PVal.frame [0, 1, 2]).2
     ⟨1, [0, 1], true⟩ (by decide) rfl⟩

end Timestream
